import Mathlib

/-!
Shallow embedding of the combat core of the arena-shooter (src/main.py) and
verification of its specified properties.

Conventions of the embedding:
* Python floats are modelled as exact rationals (ℚ); ints as ℤ/ℕ.
* Calls into the `math` library (`sqrt`, `cos`, `sin`, `atan2`) and into
  `random` are modelled by an oracle record `Ext`: every definition that uses
  them is parametric in the oracle, and theorems quantify over it.
* Fallible Python behaviour (a call with the wrong number of positional
  arguments) is modelled with `Except`.
* Fields that only feed the rendering layer (colors, trails, fonts) are
  omitted; every field read or written by the simulation logic is kept.
-/

namespace Arena

/-- Python `int(q)`: truncation toward zero of an exact rational. -/
def pyInt (q : ℚ) : ℤ := if 0 ≤ q then ⌊q⌋ else ⌈q⌉

/-- Python `a // b`: floor division on integers. -/
def pyFloorDiv (a b : ℤ) : ℤ := Int.fdiv a b

/-- `MAP_WIDTH` (src/main.py:488). -/
def MAP_WIDTH : ℚ := 5000

/-- `MAP_HEIGHT` (src/main.py:489). -/
def MAP_HEIGHT : ℚ := 5000

/-- One entry of the `DIFFICULTY` table (src/main.py:522-528); the `color`
field only feeds drawing and is dropped. `waves`/`has_boss` appear only on
the "impossible" entry and are handled by `Game` fields. -/
structure DifficultySettings where
  count : ℕ
  health : ℤ
  speed : ℚ
  damage : ℤ
  fire_rate : ℤ
  points : ℤ
  coins : ℤ
  deriving Repr, DecidableEq

/-- The difficulty keys of the `DIFFICULTY` dict. -/
inductive Difficulty
  | easy | medium | hard | impossible | pvp
  deriving Repr, DecidableEq

/-- The `DIFFICULTY` stat table (src/main.py:522-528). -/
def DIFFICULTY : Difficulty → DifficultySettings
  | .easy => ⟨8, 40, 2, 5, 90, 100, 1⟩
  | .medium => ⟨15, 60, 3, 10, 60, 200, 3⟩
  | .hard => ⟨25, 100, 4, 15, 40, 300, 8⟩
  | .impossible => ⟨10, 120, 5, 20, 30, 500, 15⟩
  | .pvp => ⟨0, 0, 0, 0, 0, 0, 0⟩

/-- Oracle for the external `math` and `random` routines the Python code
calls. `sqrt`, `cos`, `sin`, `atan2` stand for the float library functions;
`patrolTarget` stands for the next draw of `Robot.get_patrol_target`
(src/main.py:2296-2301, a pair of `random.randint`s). -/
structure Ext where
  sqrt : ℚ → ℚ
  cos : ℚ → ℚ
  sin : ℚ → ℚ
  atan2 : ℚ → ℚ → ℚ
  pi : ℚ
  patrolTarget : ℚ × ℚ

/-- A trivial oracle instance used by concrete witnesses. -/
def extW : Ext where
  sqrt := fun _ => 0
  cos := fun _ => 1
  sin := fun _ => 0
  atan2 := fun _ _ => 0
  pi := 3.141592653589793
  patrolTarget := (100, 100)

/-- `Obstacle` (src/main.py:2715-2733); the `color` field is drawing-only. -/
structure Obstacle where
  x : ℚ
  y : ℚ
  width : ℚ
  height : ℚ
  deriving Repr, DecidableEq

/-- `Obstacle.collides_circle` (src/main.py:2723-2730). -/
def Obstacle.collides_circle (o : Obstacle) (cx cy radius : ℚ) : Bool :=
  let closest_x := max o.x (min cx (o.x + o.width))
  let closest_y := max o.y (min cy (o.y + o.height))
  let dx := cx - closest_x
  let dy := cy - closest_y
  decide ((dx * dx + dy * dy) < (radius * radius))

/-- `Obstacle.collides_point` (src/main.py:2732-2733). -/
def Obstacle.collides_point (o : Obstacle) (px py : ℚ) : Bool :=
  decide (o.x ≤ px ∧ px ≤ o.x + o.width ∧ o.y ≤ py ∧ py ≤ o.y + o.height)

/-- `Bullet` (src/main.py:1490-1509). Drawing-only fields (`color`, `trail`,
`max_trail_length`) are dropped; `radius` is kept (collision uses it). -/
structure Bullet where
  x : ℚ
  y : ℚ
  start_x : ℚ
  start_y : ℚ
  angle : ℚ
  speed : ℚ
  is_player : Bool
  is_shotgun : Bool
  weapon_type : String
  radius : ℚ := 5
  base_damage : ℤ
  damage : ℤ
  lifetime : ℤ := 180
  deriving Repr, DecidableEq

/-- The `Bullet.__init__` field assignments (src/main.py:1491-1505). -/
def Bullet.init (x y angle : ℚ) (is_player is_shotgun : Bool)
    (weapon_type : String) : Bullet :=
  { x := x, y := y, start_x := x, start_y := y, angle := angle
    speed := if is_player then 15 else 8
    is_player := is_player, is_shotgun := is_shotgun, weapon_type := weapon_type
    base_damage := if is_player then 25 else 10
    damage := if is_player then 25 else 10 }

/-- `Bullet.update` (src/main.py:1511-1523), minus the drawing-only trail. -/
def Bullet.update (e : Ext) (b : Bullet) : Bullet :=
  let x := b.x + e.cos b.angle * b.speed
  let y := b.y + e.sin b.angle * b.speed
  let lifetime := b.lifetime - 1
  let lifetime :=
    if x < 0 ∨ x > MAP_WIDTH ∨ y < 0 ∨ y > MAP_HEIGHT then 0 else lifetime
  { b with x := x, y := y, lifetime := lifetime }

/-- `Bullet.get_damage` (src/main.py:1525-1542). `dist` is
`math.sqrt((x-start_x)**2 + (y-start_y)**2)`, supplied by the oracle. -/
def Bullet.get_damage (e : Ext) (b : Bullet) : ℤ :=
  if ¬b.is_shotgun then b.damage
  else
    let dist := e.sqrt ((b.x - b.start_x) ^ 2 + (b.y - b.start_y) ^ 2)
    let max_effective_range : ℚ := 150
    if dist < max_effective_range then
      let damage_mult := 1 - (dist / max_effective_range) * 0.8
      pyInt (b.base_damage * damage_mult)
    else
      10

/-- Modelled from the spec (§8, first property): the claimed shotgun-pellet
damage formula `max(10, round(base_damage × (1 − min(d,150)/150 × 0.8)))`,
stated for refinement comparison against `Bullet.get_damage`. -/
def specShotgunDamage (base_damage : ℤ) (d : ℚ) : ℤ :=
  max 10 (round ((base_damage : ℚ) * (1 - min d 150 / 150 * 0.8)))

/-- `Grenade` (src/main.py:1864-1876); `color` is drawing-only. -/
structure Grenade where
  x : ℚ
  y : ℚ
  angle : ℚ
  speed : ℚ := 10
  radius : ℚ := 8
  damage : ℤ := 150
  explosion_radius : ℚ := 150
  lifetime : ℤ := 90
  exploded : Bool := false
  roll_angle : ℚ := 0
  deriving Repr, DecidableEq

/-- `Grenade.__init__` (src/main.py:1865-1876). -/
def Grenade.init (x y angle : ℚ) : Grenade :=
  { x := x, y := y, angle := angle }

/-- `Grenade.update` (src/main.py:1878-1910): roll, friction, fuse tick,
wall bounces. -/
def Grenade.update (e : Ext) (g : Grenade) : Grenade :=
  let g := { g with x := g.x + e.cos g.angle * g.speed
                    y := g.y + e.sin g.angle * g.speed }
  let g := if g.speed > 0.5 then { g with speed := g.speed * 0.98 }
           else { g with speed := 0 }
  let g := { g with roll_angle := g.roll_angle + g.speed * 0.3 }
  let g := { g with lifetime := g.lifetime - 1 }
  let g :=
    if g.x < g.radius then
      { g with x := g.radius, angle := e.pi - g.angle, speed := g.speed * 0.7 }
    else if g.x > MAP_WIDTH - g.radius then
      { g with x := MAP_WIDTH - g.radius, angle := e.pi - g.angle, speed := g.speed * 0.7 }
    else g
  if g.y < g.radius then
    { g with y := g.radius, angle := -g.angle, speed := g.speed * 0.7 }
  else if g.y > MAP_HEIGHT - g.radius then
    { g with y := MAP_HEIGHT - g.radius, angle := -g.angle, speed := g.speed * 0.7 }
  else g

/-- `Grenade.should_explode` (src/main.py:1912-1913). -/
def Grenade.should_explode (g : Grenade) : Bool :=
  decide (g.lifetime ≤ 0) && !g.exploded

/-- `Explosion` (src/main.py:2104-2111). -/
structure Explosion where
  x : ℚ
  y : ℚ
  max_radius : ℚ
  current_radius : ℚ := 10
  lifetime : ℤ := 20
  growing : Bool := true
  deriving Repr, DecidableEq

/-- `Explosion.__init__` (src/main.py:2105-2111). -/
def Explosion.init (x y radius : ℚ) : Explosion :=
  { x := x, y := y, max_radius := radius }

/-- `Explosion.update` (src/main.py:2113-2118): the growing-radius
animation; it touches no entity other than the explosion itself. -/
def Explosion.update (ex : Explosion) : Explosion :=
  let ex :=
    if ex.growing then
      let ex := { ex with current_radius := ex.current_radius + 15 }
      if ex.current_radius ≥ ex.max_radius then { ex with growing := false }
      else ex
    else ex
  { ex with lifetime := ex.lifetime - 1 }

/-- `Explosion.is_done` (src/main.py:2120-2121). -/
def Explosion.is_done (ex : Explosion) : Bool := decide (ex.lifetime ≤ 0)

/-- Modelled from the spec (§8, second property): the claimed explosion
damage formula `round(grenade_damage × (1 − d/radius × 0.5))` for `d ≤
radius`, stated for refinement comparison against the grenade-explosion
block of `Game.update`. -/
def specExplosionDamage (grenade_damage : ℤ) (radius d : ℚ) : ℤ :=
  round ((grenade_damage : ℚ) * (1 - d / radius * 0.5))

/-- `Robot` (src/main.py:2242-2294). Drawing-only fields (`color`,
`show_sniper_target`) are dropped; everything the simulation reads is kept,
including the headshot-zone geometry used by sniper collision. -/
structure Robot where
  x : ℚ
  y : ℚ
  health : ℤ
  max_health : ℤ
  speed : ℚ
  bot_type : String
  fire_cooldown : ℤ := 0
  fire_rate : ℤ
  radius : ℚ := 20
  angle : ℚ := 0
  difficulty : Difficulty
  state : String := "patrol"
  patrol_target : ℚ × ℚ
  hit_flash : ℤ := 0
  knife_cooldown : ℤ := 0
  knife_damage : ℤ := 15
  knife_range : ℚ := 50
  knife_only : Bool
  headshot_radius : ℚ := 8
  headshot_offset_y : ℚ := -35
  freeze_timer : ℤ := 0
  base_speed : ℚ
  deriving Repr, DecidableEq

instance : Inhabited Robot :=
  ⟨{ x := 0, y := 0, health := 0, max_health := 0, speed := 0, bot_type := ""
     fire_rate := 0, difficulty := .easy, patrol_target := (0, 0)
     knife_only := false, base_speed := 0 }⟩

/-- `Robot.__init__` (src/main.py:2242-2294). `patrol_target` is the random
draw of `get_patrol_target`, supplied by the caller (an `Ext` oracle value). -/
def Robot.init (x y : ℚ) (difficulty : Difficulty) (knife_only : Bool)
    (bot_type : String) (patrol_target : ℚ × ℚ) : Robot :=
  let settings := DIFFICULTY difficulty
  let knife_only := if bot_type = "knife" then true else knife_only
  let speed := settings.speed
  let speed := if knife_only then speed * 1.2 else speed
  let speed :=
    if bot_type = "throwing_knife" then speed * 0.9
    else if bot_type = "dual_pistol" then speed * 1.1
    else speed
  let fire_rate := settings.fire_rate
  let fire_rate :=
    if bot_type = "dual_pistol" then max 15 (pyFloorDiv fire_rate 2)
    else if bot_type = "throwing_knife" then fire_rate + 20
    else fire_rate
  { x := x, y := y, health := settings.health, max_health := settings.health
    speed := speed, bot_type := bot_type, fire_rate := fire_rate
    difficulty := difficulty, patrol_target := patrol_target
    knife_only := knife_only, base_speed := speed }

/-- `Robot.update`, freeze-timer section (src/main.py:2304-2309). -/
def Robot.updateFreeze (r : Robot) : Robot :=
  if r.freeze_timer > 0 then
    { r with freeze_timer := r.freeze_timer - 1, speed := r.base_speed * 0.3 }
  else
    { r with speed := r.base_speed }

/-- `Robot.update`, state-machine section (src/main.py:2316-2325);
`dist` is the oracle value of `math.sqrt(dx*dx + dy*dy)`. -/
def Robot.updateState (r : Robot) (dist : ℚ) : Robot :=
  let detect_range : ℚ := if r.knife_only then 600 else 400
  let attack_range : ℚ := 300
  if dist < detect_range then
    if dist < attack_range then { r with state := "attack" }
    else { r with state := "chase" }
  else { r with state := "patrol" }

/-- `Robot.update`, movement section (src/main.py:2327-2359). -/
def Robot.updateMove (e : Ext) (r : Robot) (player_x player_y dist : ℚ) :
    Robot :=
  if r.state = "patrol" then
    let (tx, ty) := r.patrol_target
    let dx := tx - r.x
    let dy := ty - r.y
    let dist_to_target := e.sqrt (dx * dx + dy * dy)
    if dist_to_target < 50 then { r with patrol_target := e.patrolTarget }
    else if dist_to_target > 0 then
      { r with x := r.x + (dx / dist_to_target) * r.speed * 0.5
               y := r.y + (dy / dist_to_target) * r.speed * 0.5
               angle := e.atan2 dy dx }
    else r
  else if r.state = "chase" then
    let dx := player_x - r.x
    let dy := player_y - r.y
    let r :=
      if dist > 0 then
        { r with x := r.x + (dx / dist) * r.speed
                 y := r.y + (dy / dist) * r.speed }
      else r
    { r with angle := e.atan2 dy dx }
  else if r.state = "attack" then
    let dx := player_x - r.x
    let dy := player_y - r.y
    let r := { r with angle := e.atan2 dy dx }
    if r.knife_only ∧ dist > r.knife_range then
      if dist > 0 then
        { r with x := r.x + (dx / dist) * r.speed
                 y := r.y + (dy / dist) * r.speed }
      else r
    else r
  else r

/-- `Robot.update`, bounds clamp (src/main.py:2361-2363). -/
def Robot.updateClamp (r : Robot) : Robot :=
  { r with x := max (r.radius + 50) (min (MAP_WIDTH - r.radius - 50) r.x)
           y := max (r.radius + 50) (min (MAP_HEIGHT - r.radius - 50) r.y) }

/-- One obstacle of the push-out loop (src/main.py:2366-2376). -/
def Robot.obstaclePush (e : Ext) (r : Robot) (obs : Obstacle) : Robot :=
  if obs.collides_circle r.x r.y r.radius then
    let ox := obs.x + obs.width / 2
    let oy := obs.y + obs.height / 2
    let push_x := r.x - ox
    let push_y := r.y - oy
    let push_dist := e.sqrt (push_x * push_x + push_y * push_y)
    if push_dist > 0 then
      { r with x := r.x + (push_x / push_dist) * 5
               y := r.y + (push_y / push_dist) * 5 }
    else r
  else r

/-- `Robot.update`, obstacle push-out (src/main.py:2365-2376). -/
def Robot.updateObstacles (e : Ext) (obstacles : List Obstacle) (r : Robot) :
    Robot :=
  obstacles.foldl (Robot.obstaclePush e) r

/-- `Robot.update`, cooldown ticks (src/main.py:2378-2388). -/
def Robot.updateCooldowns (r : Robot) : Robot :=
  let r := if r.fire_cooldown > 0 then { r with fire_cooldown := r.fire_cooldown - 1 } else r
  let r := if r.knife_cooldown > 0 then { r with knife_cooldown := r.knife_cooldown - 1 } else r
  if r.hit_flash > 0 then { r with hit_flash := r.hit_flash - 1 } else r

/-- `Robot.update(self, player_x, player_y, obstacles)` (src/main.py:2303-2388):
freeze handling, distance, state machine, movement, clamping, obstacle
push-out, cooldowns, in source order. -/
def Robot.update (e : Ext) (r : Robot) (player_x player_y : ℚ)
    (obstacles : List Obstacle) : Robot :=
  let r := r.updateFreeze
  let dx := player_x - r.x
  let dy := player_y - r.y
  let dist := e.sqrt (dx * dx + dy * dy)
  let r := r.updateState dist
  let r := r.updateMove e player_x player_y dist
  let r := r.updateClamp
  let r := r.updateObstacles e obstacles
  r.updateCooldowns

/-- `Robot.can_knife` (src/main.py:2390-2400). -/
def Robot.can_knife (e : Ext) (r : Robot) (player_x player_y : ℚ) : Bool :=
  if ¬r.knife_only then false
  else if r.knife_cooldown > 0 then false
  else
    let dx := player_x - r.x
    let dy := player_y - r.y
    let dist := e.sqrt (dx * dx + dy * dy)
    decide (dist < r.knife_range)

/-- `Robot.knife_attack` (src/main.py:2402-2405): resets the knife cooldown
and returns the damage dealt. -/
def Robot.knife_attack (r : Robot) : Robot × ℤ :=
  ({ r with knife_cooldown := 30 }, r.knife_damage)

/-- `Robot.can_shoot` (src/main.py:2407-2411). -/
def Robot.can_shoot (r : Robot) : Bool :=
  if r.knife_only then false
  else decide (r.fire_cooldown ≤ 0) && decide (r.state = "attack")

/-- `Robot.take_damage` (src/main.py:2438-2441): subtracts the damage, sets
the hit flash; the Python method returns `health <= 0` (death), read off the
result here. -/
def Robot.take_damage (r : Robot) (damage : ℤ) : Robot :=
  { r with health := r.health - damage, hit_flash := 10 }

/-- `Robot.check_headshot` (src/main.py:2443-2450). -/
def Robot.check_headshot (e : Ext) (r : Robot) (bullet_x bullet_y : ℚ) : Bool :=
  let headshot_x := r.x
  let headshot_y := r.y + r.headshot_offset_y
  let dx := bullet_x - headshot_x
  let dy := bullet_y - headshot_y
  let dist := e.sqrt (dx * dx + dy * dy)
  decide (dist < r.headshot_radius + 5)

/-- `Boss.__init__` (src/main.py:2560-2579); drawing-only fields dropped.
Only creation matters for the claims (the boss's own update is out of their
scope), so the AI fields are carried but no update is embedded. -/
structure Boss where
  x : ℚ
  y : ℚ
  health : ℤ := 1000
  max_health : ℤ := 1000
  speed : ℚ := 2
  radius : ℚ := 50
  angle : ℚ := 0
  fire_cooldown : ℤ := 0
  fire_rate : ℤ := 20
  hit_flash : ℤ := 0
  attack_pattern : ℤ := 0
  pattern_timer : ℤ := 0
  charge_speed : ℚ := 8
  is_charging : Bool := false
  charge_target : Option (ℚ × ℚ) := none
  deriving Repr, DecidableEq

/-- A weapon dict of `Player.weapons` (src/main.py:2867-2888 and the
`unlock_*` entries). Keys absent on some dicts and read with `.get(key,
default)` are `Option`s (`recoil`, `reload_time`); pure-drawing keys
(`color`, `gun_length`, `gun_width`, `caliber`) are dropped. -/
structure Weapon where
  name : String
  ammo : ℤ
  max_ammo : ℤ
  reloads : ℤ
  fire_rate : ℤ
  damage : ℤ
  bullet_speed : ℚ
  melee : Bool := false
  grenade : Bool := false
  shotgun : Bool := false
  smoke_grenade : Bool := false
  no_reload : Bool := false
  recoil : Option ℚ := none
  reload_time : Option ℕ := none
  deriving Repr, DecidableEq

instance : Inhabited Weapon :=
  ⟨{ name := "", ammo := 0, max_ammo := 0, reloads := 0, fire_rate := 0
     damage := 0, bullet_speed := 0 }⟩

/-- The starting `Player.weapons` list (src/main.py:2867-2888). -/
def initialWeapons : List Weapon :=
  [ { name := "Rifle", ammo := 30, max_ammo := 30, reloads := 5, fire_rate := 6
      damage := 28, bullet_speed := 22, recoil := some 3, reload_time := some 90 },
    { name := "Handgun", ammo := 17, max_ammo := 17, reloads := 6, fire_rate := 8
      damage := 18, bullet_speed := 20, recoil := some 2, reload_time := some 60 },
    { name := "Knife", ammo := 999, max_ammo := 999, reloads := 999, fire_rate := 15
      damage := 75, bullet_speed := 0, melee := true, recoil := some 0 },
    { name := "Grenade", ammo := 4, max_ammo := 4, reloads := 0, fire_rate := 50
      damage := 150, bullet_speed := 0, grenade := true, no_reload := true
      recoil := some 0 },
    { name := "Smoke", ammo := 3, max_ammo := 3, reloads := 0, fire_rate := 50
      damage := 0, bullet_speed := 0, smoke_grenade := true, no_reload := true
      recoil := some 0 } ]

/-- `Player` (src/main.py:2828-2911): combat-relevant state. Avatar,
animation and persistence fields are rendering/storage collaborators and are
dropped; everything `shoot`/reload/recoil logic touches is kept. -/
structure Player where
  x : ℚ
  y : ℚ
  radius : ℚ := 18
  speed : ℚ := 5
  angle : ℚ := 0
  health : ℤ := 100
  max_health : ℤ := 100
  hit_flash : ℤ := 0
  fire_cooldown : ℤ := 0
  recoil : ℚ := 0
  recoil_recovery : ℚ := 0.85
  reloading : Bool := false
  reload_timer : ℤ := 0
  reload_duration : ℕ := 60
  reload_phase : ℚ := 0
  is_firing : Bool := false
  current_weapon : ℕ := 0
  weapons : List Weapon := initialWeapons
  coins : ℤ := 0
  medkit_charges : ℤ := 0
  has_shotgun : Bool := false
  has_rpg : Bool := false
  deriving Repr, DecidableEq

/-- The `Player.weapon` property (src/main.py:3131-3133):
`self.weapons[self.current_weapon]`. -/
def Player.weapon (p : Player) : Weapon :=
  p.weapons.getD p.current_weapon default

/-- The `Player.ammo` property getter (src/main.py:3135-3137). -/
def Player.ammo (p : Player) : ℤ := p.weapon.ammo

/-- The `Player.max_ammo` property (src/main.py:3143-3145). -/
def Player.max_ammo (p : Player) : ℤ := p.weapon.max_ammo

/-- Replace the currently equipped weapon dict (the effect of mutating
`self.weapon[...]` / the `Player.ammo` setter, src/main.py:3139-3141). -/
def Player.setWeapon (p : Player) (w : Weapon) : Player :=
  { p with weapons := p.weapons.set p.current_weapon w }

/-- The `Player.ammo` property setter (src/main.py:3139-3141). -/
def Player.setAmmo (p : Player) (value : ℤ) : Player :=
  p.setWeapon { p.weapon with ammo := value }

/-- `Player.apply_recoil` (src/main.py:3561-3563). -/
def Player.apply_recoil (p : Player) (amount : ℚ) : Player :=
  { p with recoil := min (p.recoil + amount) 15 }

/-- `Player.update_recoil` (src/main.py:3555-3559). -/
def Player.update_recoil (p : Player) : Player :=
  let p := { p with recoil := p.recoil * p.recoil_recovery }
  if p.recoil < 0.1 then { p with recoil := 0 } else p

/-- `Player.take_damage` (src/main.py:3550-3553); the Python return value
`health <= 0` is read off the result. -/
def Player.take_damage (p : Player) (damage : ℤ) : Player :=
  { p with health := p.health - damage, hit_flash := 10 }

/-- The result of a successful `Player.shoot` (src/main.py:3516-3548): a
melee-attack dict, a grenade-throw dict, or a `Bullet`. -/
inductive ShootResult
  | meleeAttack (damage : ℤ) (x y angle : ℚ)
  | grenadeThrow (x y angle : ℚ)
  | bullet (b : Bullet)
  deriving Repr, DecidableEq

/-- `Player.shoot` (src/main.py:3499-3548). Returns the mutated player and
`none` when the shot is declined (cooldown running, reloading, or out of
ammo on a non-melee weapon) — the Python `return None` paths, which mutate
nothing and raise nothing. -/
def Player.shoot (e : Ext) (p : Player) : Player × Option ShootResult :=
  if p.fire_cooldown > 0 then (p, none)
  else if p.reloading then (p, none)
  else if ¬p.weapon.melee ∧ p.ammo ≤ 0 then (p, none)
  else
    let p := if ¬p.weapon.melee then p.setAmmo (p.ammo - 1) else p
    let p := { p with fire_cooldown := p.weapon.fire_rate, is_firing := true }
    if p.weapon.melee then
      (p, some (.meleeAttack p.weapon.damage p.x p.y p.angle))
    else if p.weapon.grenade then
      (p, some (.grenadeThrow (p.x + e.cos p.angle * (p.radius + 10))
                              (p.y + e.sin p.angle * (p.radius + 10)) p.angle))
    else
      let p := p.apply_recoil (p.weapon.recoil.getD 2)
      let b : Bullet :=
        { Bullet.init (p.x + e.cos p.angle * (p.radius + 10))
                      (p.y + e.sin p.angle * (p.radius + 10))
                      p.angle true p.weapon.shotgun p.weapon.name with
          speed := p.weapon.bullet_speed
          base_damage := p.weapon.damage
          damage := p.weapon.damage }
      (p, some (.bullet b))

/-- `Player.start_reload` (src/main.py:3571-3582). -/
def Player.start_reload (p : Player) : Player × Bool :=
  if ¬p.reloading ∧ ¬p.weapon.no_reload then
    let reloads := p.weapon.reloads
    if reloads > 0 ∧ p.ammo < p.max_ammo then
      let d := p.weapon.reload_time.getD 60
      ({ p with reloading := true, reload_duration := d, reload_timer := (d : ℤ)
                reload_phase := 0 }, true)
    else (p, false)
  else (p, false)

/-- `Player.update_reload` (src/main.py:3584-3597). -/
def Player.update_reload (p : Player) : Player × Bool :=
  if p.reloading then
    let p := { p with reload_timer := p.reload_timer - 1 }
    let p := { p with reload_phase :=
                 1 - (p.reload_timer : ℚ) / (p.reload_duration : ℚ) }
    if p.reload_timer ≤ 0 then
      let p := { p with reloading := false, reload_phase := 0 }
      let p := p.setWeapon { p.weapon with reloads := p.weapon.reloads - 1 }
      let p := p.setAmmo p.max_ammo
      (p, true)
    else (p, false)
  else (p, false)

/-- Combat-relevant `Game` state (the fields of `Game.start_game` /
`Game.__init__` that the embedded `Game.update` blocks read or write).
Menu, audio, camera, network and rendering fields are external collaborators
and are dropped. -/
structure GameState where
  state : String := "playing"
  game_mode : String := "single"
  difficulty : Difficulty := .easy
  player : Player
  player2 : Option Player := none
  robots : List Robot := []
  bullets : List Bullet := []
  grenades : List Grenade := []
  explosions : List Explosion := []
  boss : Option Boss := none
  kills : ℕ := 0
  score : ℤ := 0
  shop_prompted : Bool := false
  obstacles : List Obstacle := []
  current_wave : ℕ := 1
  max_waves : ℕ := 5
  wave_complete_timer : ℕ := 0
  deriving DecidableEq

/-- `self.player2 and self.player2.health > 0` (used throughout the co-op
branches of `Game.update`). -/
def GameState.player2Alive (s : GameState) : Bool :=
  match s.player2 with
  | some p2 => decide (p2.health > 0)
  | none => false

/-- Python raises `TypeError` when a call provides the wrong number of
positional arguments for the method's signature; the check happens before
the method body runs. -/
inductive PyError
  | typeError
  deriving Repr, DecidableEq

/-- A Python method call providing `provided` positional arguments to a
method requiring `required`; the body runs only when the arity matches. -/
def pyCall {α : Type} (provided required : ℕ) (body : Unit → α) :
    Except PyError α :=
  if provided = required then .ok (body ()) else .error .typeError

/-- `Robot.update` requires three positional arguments after `self`:
`player_x, player_y, obstacles` (src/main.py:2303). -/
def robotUpdateArity : ℕ := 3

/-- The loop `for robot in self.robots[:]: robot.update(self.player,
self.obstacles)` (src/main.py:6272-6274). The call site provides two
positional arguments (`self.player`, `self.obstacles`) to the
three-parameter method, so on a non-empty robot list Python raises
`TypeError` at the first iteration, before any body code runs; the `body`
thunk supplies the player's coordinates only so the never-taken matching
branch typechecks. -/
def robotsSimpleUpdate (e : Ext) (player : Player)
    (obstacles : List Obstacle) : List Robot → Except PyError (List Robot)
  | [] => .ok []
  | r :: rs => do
    let r' ← pyCall 2 robotUpdateArity
      (fun _ => Robot.update e r player.x player.y obstacles)
    let rs' ← robotsSimpleUpdate e player obstacles rs
    .ok (r' :: rs')

/-- The code blocks of `Game.update` that sit below the unconditional
`return` at src/main.py:6277: projectile-vs-entity collision (6279-6425),
grenade-explosion damage (6427-6480), robot firing (6504-6556), boss update
(6558-6595) and win/lose evaluation (6597-6618). -/
inductive LatePhase
  | collision | grenadeDamage | robotFiring | bossUpdate | winLose
  deriving Repr, DecidableEq

/-- The `state == "playing"` tail of `Game.update` from the simple bullet
pass on (src/main.py:6266-6277): bullets advance and expire with no
collision, then the robot loop runs (raising `TypeError` on any robot), then
the unconditional `return` (line 6277, "TEST: Return before complex
collision detection") ends the frame. The returned list records which
`LatePhase` blocks executed; the `return` precedes them all. -/
def gameUpdatePlayingTail (e : Ext) (s : GameState) :
    Except PyError (GameState × List LatePhase) := do
  let bullets := (s.bullets.map (Bullet.update e)).filter
    fun b => !decide (b.lifetime ≤ 0)
  let robots ← robotsSimpleUpdate e s.player s.obstacles s.robots
  -- line 6277: `return` — no LatePhase block below it is reached
  .ok ({ s with bullets := bullets, robots := robots }, [])

/-- The shop-threshold check made after a kill's coins are credited
(src/main.py:6363-6366 and 6448-6451). -/
def shopCheck (s : GameState) : GameState :=
  if s.player.coins ≥ 10 ∧ ¬s.player.has_shotgun ∧ ¬s.shop_prompted then
    { s with state := "shop" }
  else if s.player.coins ≥ 50 ∧ ¬s.player.has_rpg ∧ s.player.has_shotgun ∧
      ¬s.shop_prompted then
    { s with state := "shop" }
  else s

/-- Robot kill credit of the grenade-explosion block (src/main.py:6444-6451):
`kills += 1`, `score += points`, `add_coin(coins)`, then the shop check. -/
def creditRobotKill (s : GameState) : GameState :=
  let s := { s with kills := s.kills + 1 }
  let s := { s with score := s.score + (DIFFICULTY s.difficulty).points }
  let s := { s with player :=
    { s.player with coins := s.player.coins + (DIFFICULTY s.difficulty).coins } }
  shopCheck s

/-- One robot of the explosion damage loop (src/main.py:6437-6451): a robot
strictly inside the explosion radius takes `int(damage * (1 - dist/radius *
0.5))`; a dead robot is removed (not re-appended) and credited, a survivor
is kept. `dist` is the oracle value of `math.sqrt((gx-rx)**2+(gy-ry)**2)`. -/
def grenadeRobotStep (e : Ext) (g : Grenade) (s : GameState) (r : Robot) :
    GameState :=
  let dist := e.sqrt ((g.x - r.x) ^ 2 + (g.y - r.y) ^ 2)
  if dist < g.explosion_radius then
    let damage_mult := 1 - (dist / g.explosion_radius) * 0.5
    let damage := pyInt (g.damage * damage_mult)
    let r := r.take_damage damage
    if r.health ≤ 0 then creditRobotKill s
    else { s with robots := s.robots ++ [r] }
  else { s with robots := s.robots ++ [r] }

/-- The one-time explosion effects when a grenade's fuse has elapsed
(src/main.py:6431-6477): create the `Explosion`, damage every robot strictly
inside the radius (removing the dead), then apply the reduced self-damage to
player 1 and, in co-op, player 2. -/
def grenadeExplode (e : Ext) (s : GameState) (g : Grenade) : GameState :=
  -- lines 6432-6434: create explosion
  let s := { s with explosions :=
    s.explosions ++ [Explosion.init g.x g.y g.explosion_radius] }
  -- lines 6436-6451: robot damage loop (iterates a copy, rebuilds the live list)
  let robots := s.robots
  let s := robots.foldl (grenadeRobotStep e g) { s with robots := [] }
  -- lines 6453-6464: player 1 damage (half self-damage)
  let dist := e.sqrt ((g.x - s.player.x) ^ 2 + (g.y - s.player.y) ^ 2)
  let s :=
    if dist < g.explosion_radius then
      let damage_mult := 1 - (dist / g.explosion_radius) * 0.5
      let damage := pyInt (g.damage * damage_mult * 0.5)
      let p := s.player.take_damage damage
      let s := { s with player := p }
      if p.health ≤ 0 then
        if (s.game_mode = "coop" ∨ s.game_mode = "online_coop") ∧
            s.player2Alive then s
        else { s with state := "gameover" }
      else s
    else s
  -- lines 6466-6477: player 2 damage in co-op
  match s.player2 with
  | some p2 =>
    if (s.game_mode = "coop" ∨ s.game_mode = "online_coop") ∧ p2.health > 0 then
      let dist2 := e.sqrt ((g.x - p2.x) ^ 2 + (g.y - p2.y) ^ 2)
      if dist2 < g.explosion_radius then
        let damage_mult := 1 - (dist2 / g.explosion_radius) * 0.5
        let damage := pyInt (g.damage * damage_mult * 0.5)
        let p2 := p2.take_damage damage
        let s := { s with player2 := some p2 }
        if p2.health ≤ 0 then
          if s.player.health > 0 then s else { s with state := "gameover" }
        else s
      else s
    else s
  | none => s

/-- One iteration of the grenade loop (src/main.py:6428-6480): update the
grenade; when `should_explode()`, apply the one-time explosion effects, set
`exploded = True` and remove the grenade from the list. The returned flag
says whether the grenade stays in `self.grenades`. -/
def grenadeStep (e : Ext) (s : GameState) (g : Grenade) :
    (Grenade × Bool) × GameState :=
  let g := g.update e
  if g.should_explode then
    let s := grenadeExplode e s g
    let g := { g with exploded := true }
    ((g, false), s)
  else ((g, true), s)

/-- The explosion-animation pass (src/main.py:6482-6486): each explosion
runs its growing-radius `update` and is dropped once done. The loop touches
only `self.explosions`; the robot list is carried through untouched to state
that explicitly. -/
def explosionsPhase (explosions : List Explosion) (robots : List Robot) :
    List Explosion × List Robot :=
  ((explosions.map Explosion.update).filter fun ex => !ex.is_done, robots)

/-- The per-robot hit test of the bullet-vs-robots loop
(src/main.py:6326-6335): sniper headshot-zone hit or body-circle hit. -/
def bulletHitsRobot (e : Ext) (b : Bullet) (r : Robot) : Bool :=
  let is_headshot := b.weapon_type = "Sniper" && r.check_headshot e b.x b.y
  let dist := e.sqrt ((b.x - r.x) ^ 2 + (b.y - r.y) ^ 2)
  is_headshot || decide (dist < r.radius + b.radius)

/-- The electric chain-lightning loop (src/main.py:6345-6352): on an
electric hit dealing `damage` to the primary robot (position `go`'s
`primaryIdx` in the live list), every OTHER robot (Python identity test
`other_robot != robot`) within 150 of the primary takes `damage // 2` and
flashes; the kill-check return value of `take_damage` is discarded, so no
robot is removed here. One pass only: chained damage does not propagate. -/
def electricChainGo (e : Ext) (primaryIdx : ℕ) (primary : Robot)
    (damage : ℤ) : ℕ → List Robot → List Robot
  | _, [] => []
  | i, r :: rs =>
    let r' :=
      if i ≠ primaryIdx then
        let other_dist :=
          e.sqrt ((primary.x - r.x) ^ 2 + (primary.y - r.y) ^ 2)
        if other_dist < 150 then
          let r := r.take_damage (pyFloorDiv damage 2)
          { r with hit_flash := 10 }
        else r
      else r
    r' :: electricChainGo e primaryIdx primary damage (i + 1) rs

/-- The chain loop started at index 0 of the live robot list. -/
def electricChain (e : Ext) (primaryIdx : ℕ) (primary : Robot) (damage : ℤ)
    (robots : List Robot) : List Robot :=
  electricChainGo e primaryIdx primary damage 0 robots

/-- The bullet-vs-robots block of `Game.update` (src/main.py:6323-6368):
scan the robot list in order for the first robot the bullet strikes
(headshot zone or body circle); compute the damage (sniper override or
`get_damage`), apply the weapon special effect (freeze timer, electric
chain), then `take_damage` on the primary — removing and crediting it if it
dies. Returns the new state and `hit_something`. -/
def bulletRobotsBlock (e : Ext) (s : GameState) (b : Bullet) :
    GameState × Bool :=
  match s.robots.findIdx? (bulletHitsRobot e b) with
  | none => (s, false)
  | some i =>
    let robot := s.robots.getD i default
    let is_headshot := b.weapon_type = "Sniper" && robot.check_headshot e b.x b.y
    -- lines 6336-6340: sniper override or per-weapon damage
    let damage : ℤ :=
      if b.weapon_type = "Sniper" then (if is_headshot then 150 else 50)
      else b.get_damage e
    -- lines 6342-6352: special effects, applied to the live list
    let robots :=
      if b.weapon_type = "Freeze" then
        s.robots.set i { robot with freeze_timer := 120 }
      else s.robots
    let robots :=
      if b.weapon_type = "Electric" then electricChain e i robot damage robots
      else robots
    -- lines 6354-6366: damage the primary, remove and credit on death
    let primary := (robots.getD i default).take_damage damage
    if primary.health ≤ 0 then
      let s := { s with robots := robots.eraseIdx i, kills := s.kills + 1 }
      let s :=
        if s.game_mode ≠ "pvp" then
          let bonus : ℤ := if is_headshot then 2 else 1
          let s := { s with score :=
            s.score + (DIFFICULTY s.difficulty).points * bonus }
          let s := { s with player := { s.player with
            coins := s.player.coins + (DIFFICULTY s.difficulty).coins } }
          shopCheck s
        else s
      (s, true)
    else ({ s with robots := robots.set i primary }, true)

/-- Oracle for the random draws of the wave director: `spawnPos i` and
`patrol i` are the i-th robot's random spawn position and initial patrol
target (`Game.spawn_robots`, src/main.py:5027-5033 and
`Robot.get_patrol_target`); `bossPos` is the first draw of the
`Game.spawn_boss` retry loop (src/main.py:5035-5044) that passes its
distance-from-player check. -/
structure SpawnExt where
  spawnPos : ℕ → ℚ × ℚ
  patrol : ℕ → ℚ × ℚ
  bossPos : ℚ × ℚ

/-- The bot-type cycle of `Game.spawn_robots` (src/main.py:6031):
`["gun", "knife", "throwing_knife", "dual_pistol"][i % 4]`. -/
def botTypeCycle (i : ℕ) : String :=
  ["gun", "knife", "throwing_knife", "dual_pistol"].getD (i % 4) "gun"

/-- `Game.spawn_robots` (src/main.py:5021-5033): reset the robot list and
spawn `DIFFICULTY[difficulty]["count"]` robots, alternating bot types. -/
def Game.spawn_robots (sx : SpawnExt) (s : GameState) : GameState :=
  let settings := DIFFICULTY s.difficulty
  let total_count := settings.count
  { s with robots := (List.range total_count).map (fun i =>
      let bot_type := botTypeCycle i
      let knife_only := bot_type = "knife"
      Robot.init (sx.spawnPos i).1 (sx.spawnPos i).2 s.difficulty knife_only
        bot_type (sx.patrol i)) }

/-- `Game.spawn_boss` (src/main.py:5035-5044): place the boss at the first
random draw far enough from the player (the accepted draw is the oracle's
`bossPos`). -/
def Game.spawn_boss (sx : SpawnExt) (s : GameState) : GameState :=
  { s with boss := some { x := sx.bossPos.1, y := sx.bossPos.2 } }

/-- `Game.next_wave` (src/main.py:5046-5053). -/
def Game.next_wave (sx : SpawnExt) (s : GameState) : GameState :=
  let s := { s with current_wave := s.current_wave + 1 }
  if s.current_wave ≤ s.max_waves then
    let s := Game.spawn_robots sx s
    if s.current_wave = s.max_waves then Game.spawn_boss sx s else s
  else s

/-- The win-condition / wave-director check at the end of `Game.update`
(src/main.py:6597-6618): in wave mode ("impossible"), with no robots and no
boss, tick the settle delay and fire `next_wave` once the timer passes 120;
at the final wave this is the win condition instead. -/
def Game.waveCheck (sx : SpawnExt) (s : GameState) : GameState :=
  if s.game_mode = "pvp" ∨ s.game_mode = "online_pvp" then s
  else if s.difficulty = .impossible then
    if s.robots.length = 0 ∧ s.boss = none then
      if s.current_wave < s.max_waves then
        let s := { s with wave_complete_timer := s.wave_complete_timer + 1 }
        if s.wave_complete_timer > 120 then
          Game.next_wave sx { s with wave_complete_timer := 0 }
        else s
      else { s with state := "gameover" }
    else s
  else if s.robots.length = 0 then { s with state := "gameover" }
  else s

/-! ### Arithmetic helper lemmas -/

theorem pyInt_intCast (n : ℤ) : pyInt (n : ℚ) = n := by
  unfold pyInt
  split_ifs <;> simp

theorem pyInt_eq_floor {q : ℚ} (h : 0 ≤ q) : pyInt q = ⌊q⌋ := if_pos h

/-- Python `damage // 2` is `⌊damage / 2⌋`, the floor of the true quotient. -/
theorem fdiv_two_eq_floor (a : ℤ) : pyFloorDiv a 2 = ⌊(a : ℚ) / 2⌋ := by
  rw [show ((2 : ℚ)) = ((2 : ℕ) : ℚ) by norm_num, Rat.floor_intCast_div_natCast,
    pyFloorDiv, Int.fdiv_eq_ediv _ (by norm_num)]
  rfl

/-- `getD` after `set` at the same in-bounds index yields the new value. -/
theorem getD_set_eq {α : Type} (l : List α) (i : ℕ) (a d : α)
    (h : i < l.length) : (l.set i a).getD i d = a := by
  rw [List.getD_eq_getElem?_getD, List.getElem?_set_self (by simpa using h)]
  rfl

/-- Replacing the equipped weapon and reading it back (in bounds). -/
theorem weapon_setWeapon (p : Player) (w : Weapon)
    (hw : p.current_weapon < p.weapons.length) : (p.setWeapon w).weapon = w := by
  simp only [Player.setWeapon, Player.weapon]
  exact getD_set_eq _ _ _ _ hw

/-- Two successive equipped-weapon replacements collapse. -/
theorem setWeapon_setWeapon (p : Player) (w1 w2 : Weapon) :
    (p.setWeapon w1).setWeapon w2 = p.setWeapon w2 := by
  simp only [Player.setWeapon, List.set_set]

/-! ### C2: shotgun distance falloff -/

/-- **C2** (amended): for every shotgun pellet and every traveled distance
`d ≥ 0` (the oracle's value for `math.sqrt` of the squared displacement),
`Bullet.get_damage` returns `int(base_damage * (1 - d/150 * 0.8))` —
truncation toward zero, not `round` — for `d < 150`, and `10` for every
`d ≥ 150`; at `d = 0` it returns `base_damage`; and for the game's pellets
(base damage 50 or 65, whence the `50 ≤ base_damage` hypothesis) the result
never falls below the floor of 10. -/
theorem shotgun_damage_formula (e : Ext) (b : Bullet) (d : ℚ)
    (hshot : b.is_shotgun = true)
    (hdist : e.sqrt ((b.x - b.start_x) ^ 2 + (b.y - b.start_y) ^ 2) = d)
    (hd : 0 ≤ d) (hbase : 50 ≤ b.base_damage) :
    b.get_damage e =
      (if d < 150 then pyInt ((b.base_damage : ℚ) * (1 - d / 150 * 0.8)) else 10)
    ∧ (d = 0 → b.get_damage e = b.base_damage)
    ∧ (150 ≤ d → b.get_damage e = 10)
    ∧ 10 ≤ b.get_damage e := by
  have hun : b.get_damage e =
      (if d < 150 then pyInt ((b.base_damage : ℚ) * (1 - d / 150 * 0.8)) else 10) := by
    unfold Bullet.get_damage
    rw [hshot, hdist]
    norm_num
  refine ⟨hun, ?_, ?_, ?_⟩
  · intro h0
    subst h0
    rw [hun, if_pos (by norm_num)]
    norm_num [pyInt_intCast]
  · intro h150
    rw [hun, if_neg (not_lt.mpr h150)]
  · rw [hun]
    split_ifs with hlt
    · have hb : (50 : ℚ) ≤ (b.base_damage : ℚ) := by exact_mod_cast hbase
      have hq : (10 : ℚ) < (b.base_damage : ℚ) * (1 - d / 150 * 0.8) := by
        have h1 : d / 150 < 1 := (div_lt_one (by norm_num)).mpr hlt
        nlinarith
      rw [pyInt_eq_floor (le_of_lt (lt_trans (by norm_num) hq))]
      exact Int.le_floor.mpr (le_of_lt (by exact_mod_cast hq))
    · norm_num

/-- The `unlock_shotgun` pellet (base damage 50, src/main.py:3163) having
travelled 20 units: fired at (0,0), now at (20,0). -/
def pelletC2 : Bullet :=
  { Bullet.init 0 0 0 true true "Shotgun" with x := 20, base_damage := 50, damage := 50 }

/-- Oracle returning the pellet's true travel distance (√400 = 20). -/
def extC2 : Ext := { extW with sqrt := fun _ => 20 }

/-- **C2 counterexample**: at distance 20 the code truncates
`50·(1 − 20/150·0.8) = 44.6…` to 44, while the claimed formula
`max(10, round(…))` gives 45. -/
theorem shotgun_damage_truncates_not_rounds :
    pelletC2.get_damage extC2 = 44 ∧ specShotgunDamage 50 20 = 45 ∧ (44 : ℤ) ≠ 45 := by
  refine ⟨?_, ?_, by decide⟩
  · norm_num [Bullet.get_damage, pelletC2, extC2, extW, Bullet.init, pyInt,
      Int.floor_eq_iff]
  · norm_num [specShotgunDamage, round_eq, Int.floor_eq_iff]

/-- Witness for the amended C2 theorem at the concrete pellet. -/
theorem shotgun_damage_formula_witness :
    pelletC2.get_damage extC2 =
      (if (20 : ℚ) < 150 then
        pyInt ((pelletC2.base_damage : ℚ) * (1 - 20 / 150 * 0.8)) else 10) :=
  (shotgun_damage_formula extC2 pelletC2 20 rfl rfl (by norm_num) (by decide)).1

/-! ### C3: grenade explosion damage -/

/-- A fresh player at the origin, used as concrete game-state filler. -/
def playerW : Player := { x := 0, y := 0 }

/-- **C3** (amended): when a grenade's fuse elapses, damage is applied
exactly once, at explosion creation, to every living robot at distance
`d < explosion_radius` — strictly: a robot at exactly the radius is
untouched — the robot losing `int(grenade_damage * (1 - d/radius * 0.5))`
health (truncation, not rounding); at `d = 0` the full `grenade_damage` is
dealt; the Explosion's growing-radius animation pass afterwards changes no
robot; and the exploding grenade is marked `exploded` and removed from the
grenade list, a marked grenade never satisfying `should_explode` again. -/
theorem grenade_explosion_damage_once (e : Ext) (g : Grenade) (s : GameState)
    (r : Robot) (d : ℚ)
    (hdist : e.sqrt ((g.x - r.x) ^ 2 + (g.y - r.y) ^ 2) = d) :
    (d < g.explosion_radius →
       grenadeRobotStep e g s r =
         (let dmg := pyInt ((g.damage : ℚ) * (1 - d / g.explosion_radius * 0.5))
          if (r.take_damage dmg).health ≤ 0 then creditRobotKill s
          else { s with robots := s.robots ++ [r.take_damage dmg] }))
  ∧ (g.explosion_radius ≤ d →
       grenadeRobotStep e g s r = { s with robots := s.robots ++ [r] })
  ∧ (d = 0 →
       pyInt ((g.damage : ℚ) * (1 - d / g.explosion_radius * 0.5)) = g.damage)
  ∧ (∀ (es : List Explosion) (rs : List Robot), (explosionsPhase es rs).2 = rs)
  ∧ (∀ (s' : GameState) (g' : Grenade), (g'.update e).should_explode = true →
       (grenadeStep e s' g').1.2 = false ∧ (grenadeStep e s' g').1.1.exploded = true)
  ∧ (∀ g' : Grenade, g'.exploded = true → g'.should_explode = false) := by
  refine ⟨?_, ?_, ?_, fun es rs => rfl, ?_, ?_⟩
  · intro h
    simp only [grenadeRobotStep, hdist, if_pos h]
  · intro h
    simp only [grenadeRobotStep, hdist, if_neg (not_lt.mpr h)]
  · intro h0
    subst h0
    norm_num [pyInt_intCast]
  · intro s' g' h
    simp [grenadeStep, h]
  · intro g' h
    simp [Grenade.should_explode, h]

/-- Grenade at the origin with its default damage 150 / radius 150. -/
def grenadeC3 : Grenade := Grenade.init 0 0 0

/-- Minimal game state holding only the filler player. -/
def stateC3 : GameState := { player := playerW }

/-- Oracle reporting distance exactly 150 (robot at (150,0)). -/
def extC3a : Ext := { extW with sqrt := fun _ => 150 }

/-- A robot at (150,0) — exactly at the explosion radius — with 100 health. -/
def robotC3a : Robot := { Robot.init 150 0 .easy false "gun" (0, 0) with health := 100 }

/-- Oracle reporting distance 1 (robot at (1,0)). -/
def extC3b : Ext := { extW with sqrt := fun _ => 1 }

/-- A robot at (1,0) with 200 health. -/
def robotC3b : Robot := { Robot.init 1 0 .easy false "gun" (0, 0) with health := 200 }

/-- **C3 counterexample**: (a) the robot at distance exactly
`explosion_radius` (150) is re-appended untouched at health 100, though the
claim (`d ≤ radius`, exactly half damage at the edge) demands
`round(150·0.5) = 75` damage; (b) at distance 1 the code deals
`int(149.5) = 149` leaving 51 health, where the claim's `round(149.5) = 150`
would leave 50. -/
theorem explosion_edge_robot_untouched :
    ((grenadeRobotStep extC3a grenadeC3 stateC3 robotC3a).robots = [robotC3a]
      ∧ robotC3a.health = 100
      ∧ specExplosionDamage 150 150 150 = 75)
  ∧ ((grenadeRobotStep extC3b grenadeC3 stateC3 robotC3b).robots.map Robot.health
        = [51]
      ∧ 200 - specExplosionDamage 150 150 1 = 50
      ∧ (51 : ℤ) ≠ 50) := by
  refine ⟨⟨?_, rfl, ?_⟩, ⟨?_, ?_, by decide⟩⟩
  · norm_num [grenadeRobotStep, extC3a, extW, grenadeC3, Grenade.init, stateC3]
  · norm_num [specExplosionDamage, round_eq, Int.floor_eq_iff]
  · norm_num [grenadeRobotStep, extC3b, extW, grenadeC3, Grenade.init, stateC3,
      Robot.take_damage, robotC3b, Robot.init, pyInt, Int.floor_eq_iff]
  · norm_num [specExplosionDamage, round_eq, Int.floor_eq_iff]

/-- Witness for the amended C3 theorem: at distance 0 the full grenade
damage is dealt. -/
theorem grenade_explosion_damage_once_witness :
    pyInt ((grenadeC3.damage : ℚ) * (1 - 0 / grenadeC3.explosion_radius * 0.5))
      = grenadeC3.damage :=
  (grenade_explosion_damage_once extW grenadeC3 stateC3 robotC3a 0 rfl).2.2.1 rfl

/-! ### C1: the playing-state frame never reaches the late code -/

/-- **C1**: in the `state == "playing"` tail of `Game.update`, execution
never reaches the projectile-vs-entity collision, grenade-explosion damage,
robot-firing, boss-update or win/lose-evaluation code: with a non-empty
robot list the two-argument call `robot.update(self.player, self.obstacles)`
(against the three-parameter signature `player_x, player_y, obstacles`)
raises `TypeError`, and with an empty robot list the unconditional `return`
at src/main.py:6277 ends the frame; every non-raising outcome records no
executed late phase. -/
theorem playing_frame_never_reaches_late_code (e : Ext) (s : GameState) :
    (s.robots ≠ [] → gameUpdatePlayingTail e s = .error .typeError)
  ∧ (s.robots = [] →
      gameUpdatePlayingTail e s =
        .ok ({ s with
                bullets := (s.bullets.map (Bullet.update e)).filter
                  (fun b => !decide (b.lifetime ≤ 0))
                robots := [] }, ([] : List LatePhase)))
  ∧ (∀ out, gameUpdatePlayingTail e s = .ok out → out.2 = []) := by
  have herr : ∀ (r : Robot) (rs : List Robot),
      robotsSimpleUpdate e s.player s.obstacles (r :: rs) = .error .typeError :=
    fun r rs => rfl
  have h1 : s.robots ≠ [] → gameUpdatePlayingTail e s = .error .typeError := by
    intro hne
    match hr : s.robots with
    | [] => exact absurd hr hne
    | r :: rs =>
      simp only [gameUpdatePlayingTail, hr, herr]
      rfl
  have h2 : s.robots = [] →
      gameUpdatePlayingTail e s =
        .ok ({ s with
                bullets := (s.bullets.map (Bullet.update e)).filter
                  (fun b => !decide (b.lifetime ≤ 0))
                robots := [] }, ([] : List LatePhase)) := by
    intro hr
    simp only [gameUpdatePlayingTail, hr]
    rfl
  refine ⟨h1, h2, ?_⟩
  intro out hout
  match hr : s.robots with
  | [] =>
    rw [h2 hr] at hout
    injection hout with h
    rw [← h]
  | r :: rs =>
    rw [h1 (by rw [hr]; simp)] at hout
    exact Except.noConfusion hout

/-- A live robot placed away from the player. -/
def robotC1 : Robot := Robot.init 200 200 .easy false "gun" (300, 300)

/-- Playing state with one robot: the frame raises. -/
def stateC1 : GameState := { player := playerW, robots := [robotC1] }

/-- Playing state with no robots: the frame ends at the `return`. -/
def stateC1e : GameState := { player := playerW }

/-- Witness for C1: one robot ⇒ `TypeError`; no robots ⇒ the frame ends
with no late phase executed. -/
theorem playing_frame_never_reaches_late_code_witness :
    gameUpdatePlayingTail extW stateC1 = .error .typeError
  ∧ gameUpdatePlayingTail extW stateC1e =
      .ok ({ stateC1e with
              bullets := (stateC1e.bullets.map (Bullet.update extW)).filter
                (fun b => !decide (b.lifetime ≤ 0))
              robots := [] }, ([] : List LatePhase)) :=
  ⟨(playing_frame_never_reaches_late_code extW stateC1).1 (by simp [stateC1]),
   (playing_frame_never_reaches_late_code extW stateC1e).2.1 rfl⟩

/-! ### C4: reload completes after exactly reload_duration updates -/

/-- While the countdown is still positive, each `update_reload` only
decrements the timer (and recomputes the phase): after `k` ticks with
`k < reload_timer`, the player is still reloading, the timer has dropped by
exactly `k`, and weapons, weapon index and duration are untouched. -/
theorem update_reload_ticks (k : ℕ) (p : Player) (hrel : p.reloading = true)
    (hk : (k : ℤ) < p.reload_timer) :
    ((fun q => (Player.update_reload q).1)^[k] p).reloading = true
    ∧ ((fun q => (Player.update_reload q).1)^[k] p).reload_timer
        = p.reload_timer - k
    ∧ ((fun q => (Player.update_reload q).1)^[k] p).weapons = p.weapons
    ∧ ((fun q => (Player.update_reload q).1)^[k] p).current_weapon
        = p.current_weapon
    ∧ ((fun q => (Player.update_reload q).1)^[k] p).reload_duration
        = p.reload_duration := by
  induction k generalizing p with
  | zero => simp [hrel]
  | succ k ih =>
    have h1 : ¬(p.reload_timer - 1 ≤ 0) := by push_cast at hk; omega
    have hstep : (Player.update_reload p).1 =
        { p with reload_timer := p.reload_timer - 1,
                 reload_phase := 1 - ((p.reload_timer - 1 : ℤ) : ℚ) /
                   (p.reload_duration : ℚ) } := by
      unfold Player.update_reload
      simp [hrel, h1]
    have hk' : ((k : ℤ)) <
        ({ p with reload_timer := p.reload_timer - 1,
                  reload_phase := 1 - ((p.reload_timer - 1 : ℤ) : ℚ) /
                    (p.reload_duration : ℚ) } : Player).reload_timer := by
      show (k : ℤ) < p.reload_timer - 1
      push_cast at hk
      omega
    have := ih { p with reload_timer := p.reload_timer - 1,
                        reload_phase := 1 - ((p.reload_timer - 1 : ℤ) : ℚ) /
                          (p.reload_duration : ℚ) } hrel hk'
    rw [Function.iterate_succ_apply, hstep]
    refine ⟨this.1, ?_, this.2.2.1, this.2.2.2.1, this.2.2.2.2⟩
    rw [this.2.1]
    show p.reload_timer - 1 - (k : ℤ) = p.reload_timer - ((k : ℕ) + 1 : ℕ)
    push_cast
    omega

/-- The final `update_reload` tick (timer at 1 or below): clears
`reloading`, consumes one reload charge of the equipped weapon, and refills
its ammo to `max_ammo`. -/
theorem update_reload_last (q : Player) (hrel : q.reloading = true)
    (ht : q.reload_timer ≤ 1) (hw : q.current_weapon < q.weapons.length) :
    (Player.update_reload q).1.reloading = false
    ∧ (Player.update_reload q).1.ammo = q.max_ammo
    ∧ (Player.update_reload q).1.weapon.reloads = q.weapon.reloads - 1 := by
  have h0 : q.reload_timer - 1 ≤ 0 := by omega
  have hgd : (q.weapons.set q.current_weapon
        { q.weapon with reloads := q.weapon.reloads - 1 }).getD
      q.current_weapon default =
      { q.weapon with reloads := q.weapon.reloads - 1 } :=
    getD_set_eq _ _ _ _ hw
  have hfinal : (Player.update_reload q).1 =
      { q with
          reload_timer := q.reload_timer - 1,
          reload_phase := 0,
          reloading := false,
          weapons := q.weapons.set q.current_weapon
            { q.weapon with reloads := q.weapon.reloads - 1, ammo := q.weapon.max_ammo } } := by
    unfold Player.update_reload
    simp only [hrel, if_true, h0, ite_true, if_pos]
    simp only [Player.setAmmo, Player.setWeapon, Player.max_ammo,
      Player.weapon, Player.ammo, List.set_set]
    simp only [Player.weapon] at hgd
    rw [hgd]
  refine ⟨by rw [hfinal], ?_, ?_⟩
  · rw [hfinal]
    simp only [Player.ammo, Player.weapon, Player.max_ammo]
    rw [getD_set_eq _ _ _ _ hw]
  · rw [hfinal]
    simp only [Player.weapon]
    rw [getD_set_eq _ _ _ _ hw]

/-- **C4**: for a weapon with `reloads > 0`, `ammo < max_ammo`, not
reloading and without the `no_reload` flag: `start_reload()` followed by
exactly `reload_duration` calls to `update_reload()` (the weapon's
`reload_time`, default 60) transitions `reloading` from true to false,
restores `ammo = max_ammo`, and decrements the weapon's remaining `reloads`
by exactly 1; no earlier call completes the reload. -/
theorem reload_completes_after_duration (p : Player)
    (hw : p.current_weapon < p.weapons.length)
    (hnr : p.weapon.no_reload = false) (hrel : p.reloading = false)
    (hreloads : 0 < p.weapon.reloads) (hammo : p.ammo < p.max_ammo)
    (hd : 0 < p.weapon.reload_time.getD 60) :
    ((p.start_reload).1.reloading = true)
    ∧ (∀ k < p.weapon.reload_time.getD 60,
        ((fun q => (Player.update_reload q).1)^[k]
          (p.start_reload).1).reloading = true)
    ∧ ((fun q => (Player.update_reload q).1)^[p.weapon.reload_time.getD 60]
          (p.start_reload).1).reloading = false
    ∧ ((fun q => (Player.update_reload q).1)^[p.weapon.reload_time.getD 60]
          (p.start_reload).1).ammo = p.max_ammo
    ∧ ((fun q => (Player.update_reload q).1)^[p.weapon.reload_time.getD 60]
          (p.start_reload).1).weapon.reloads = p.weapon.reloads - 1 := by
  set d := p.weapon.reload_time.getD 60 with hddef
  have hp1 : (p.start_reload).1 =
      { p with reloading := true, reload_duration := d,
               reload_timer := (d : ℤ), reload_phase := 0 } := by
    unfold Player.start_reload
    simp [hrel, hnr, hreloads, hammo, hddef]
  have hticks := fun (k : ℕ) (hk : (k : ℤ) < ((p.start_reload).1).reload_timer) =>
    update_reload_ticks k (p.start_reload).1 (by rw [hp1]) hk
  have htimer1 : ((p.start_reload).1).reload_timer = (d : ℤ) := by rw [hp1]
  refine ⟨by rw [hp1], ?_, ?_⟩
  · intro k hk
    exact (hticks k (by rw [htimer1]; exact_mod_cast hk)).1
  · have hq := hticks (d - 1) (by rw [htimer1]; omega)
    obtain ⟨hq1, hq2, hq3, hq4, hq5⟩ := hq
    have hqw : ((fun q => (Player.update_reload q).1)^[d - 1]
        (p.start_reload).1).current_weapon <
        ((fun q => (Player.update_reload q).1)^[d - 1]
          (p.start_reload).1).weapons.length := by
      rw [hq3, hq4, hp1]
      exact hw
    have hqt : ((fun q => (Player.update_reload q).1)^[d - 1]
        (p.start_reload).1).reload_timer ≤ 1 := by
      rw [hq2, htimer1]
      omega
    have hlast := update_reload_last _ hq1 hqt hqw
    have hit : (fun q => (Player.update_reload q).1)^[d] (p.start_reload).1 =
        (Player.update_reload ((fun q => (Player.update_reload q).1)^[d - 1]
          (p.start_reload).1)).1 := by
      conv_lhs => rw [show d = (d - 1) + 1 by omega]
      rw [Function.iterate_succ_apply']
    have hweap : ((fun q => (Player.update_reload q).1)^[d - 1]
        (p.start_reload).1).weapon = p.weapon := by
      simp only [Player.weapon]
      rw [hq3, hq4, hp1]
    refine ⟨by rw [hit]; exact hlast.1, ?_, ?_⟩
    · rw [hit, hlast.2.1]
      simp only [Player.max_ammo]
      rw [hweap]
    · rw [hit, hlast.2.2, hweap]

/-- A player mid-magazine: the starting Rifle with 12 rounds left. -/
def playerC4 : Player :=
  { x := 0, y := 0,
    weapons := [{ name := "Rifle", ammo := 12, max_ammo := 30, reloads := 5,
                  fire_rate := 6, damage := 28, bullet_speed := 22,
                  recoil := some 3, reload_time := some 90 }] }

/-- Witness for C4: the Rifle reload (duration 90) completes with full ammo
and one fewer reload charge. -/
theorem reload_completes_after_duration_witness :
    ((playerC4.start_reload).1.reloading = true)
    ∧ ((fun q => (Player.update_reload q).1)^[playerC4.weapon.reload_time.getD 60]
        (playerC4.start_reload).1).reloading = false
    ∧ ((fun q => (Player.update_reload q).1)^[playerC4.weapon.reload_time.getD 60]
        (playerC4.start_reload).1).ammo = playerC4.max_ammo
    ∧ ((fun q => (Player.update_reload q).1)^[playerC4.weapon.reload_time.getD 60]
        (playerC4.start_reload).1).weapon.reloads = playerC4.weapon.reloads - 1 := by
  have h := reload_completes_after_duration playerC4 (by decide) (by decide)
    (by decide) (by decide) (by decide) (by decide)
  exact ⟨h.1, h.2.2.1, h.2.2.2.1, h.2.2.2.2⟩

/-! ### C5: declined shots are silent no-ops -/

/-- **C5**: when the fire cooldown has not elapsed, or a reload is in
progress, or the equipped weapon is not melee and its ammo is ≤ 0, `shoot`
returns no projectile and the player — weapon list and hence ammo included —
is entirely unchanged; the embedding is a total function, mirroring the
Python `return None` paths, which raise nothing. -/
theorem shoot_declined_is_noop (e : Ext) (p : Player)
    (h : 0 < p.fire_cooldown ∨ p.reloading = true ∨
         (p.weapon.melee = false ∧ p.ammo ≤ 0)) :
    p.shoot e = (p, none) := by
  unfold Player.shoot
  split_ifs with h1 h2 h3 <;>
    first
      | rfl
      | (exfalso
         rcases h with h | h | h
         · exact h1 h
         · exact h2 h
         · exact h3 ⟨by simp [h.1], h.2⟩)

/-- A player whose equipped Rifle has run dry (0 ammo, not melee). -/
def playerC5 : Player :=
  { x := 0, y := 0,
    weapons := [{ name := "Rifle", ammo := 0, max_ammo := 30, reloads := 5,
                  fire_rate := 6, damage := 28, bullet_speed := 22,
                  recoil := some 3, reload_time := some 90 }] }

/-- Witness for C5: zero-ammo shot returns nothing and changes nothing. -/
theorem shoot_declined_is_noop_witness :
    playerC5.shoot extW = (playerC5, none) :=
  shoot_declined_is_noop extW playerC5 (Or.inr (Or.inr ⟨by decide, by decide⟩))

/-! ### C6: the wave director -/

/-- During the settle delay (robots cleared, boss absent, final wave not
reached) every `waveCheck` tick only increments the settle timer. -/
theorem waveCheck_settle_ticks (sx : SpawnExt) (n : ℕ) (s : GameState)
    (hm : s.game_mode ≠ "pvp") (hm2 : s.game_mode ≠ "online_pvp")
    (hdiff : s.difficulty = .impossible) (hrob : s.robots = [])
    (hboss : s.boss = none) (hwave : s.current_wave < s.max_waves)
    (hn : s.wave_complete_timer + n ≤ 120) :
    (Game.waveCheck sx)^[n] s =
      { s with wave_complete_timer := s.wave_complete_timer + n } := by
  induction n generalizing s with
  | zero => simp
  | succ n ih =>
    rw [Function.iterate_succ_apply]
    have hstep : Game.waveCheck sx s =
        { s with wave_complete_timer := s.wave_complete_timer + 1 } := by
      simp only [Game.waveCheck]
      rw [if_neg (not_or.mpr ⟨hm, hm2⟩), if_pos hdiff,
        if_pos (show s.robots.length = 0 ∧ s.boss = none from
          ⟨by rw [hrob]; rfl, hboss⟩),
        if_pos hwave, if_neg (show ¬(s.wave_complete_timer + 1 > 120) by omega)]
    rw [hstep]
    have := ih { s with wave_complete_timer := s.wave_complete_timer + 1 }
      hm hm2 hdiff hrob hboss hwave
      (show s.wave_complete_timer + 1 + n ≤ 120 by omega)
    rw [this]
    have harith : s.wave_complete_timer + 1 + n = s.wave_complete_timer + (n + 1) := by
      omega
    rw [harith]

/-- `spawn_robots` replaces only the robot list. -/
theorem spawn_robots_current_wave (sx : SpawnExt) (t : GameState) :
    (Game.spawn_robots sx t).current_wave = t.current_wave := rfl

theorem spawn_robots_max_waves (sx : SpawnExt) (t : GameState) :
    (Game.spawn_robots sx t).max_waves = t.max_waves := rfl

theorem spawn_robots_boss (sx : SpawnExt) (t : GameState) :
    (Game.spawn_robots sx t).boss = t.boss := rfl

/-- What one `next_wave` call does when the incremented wave is still within
`max_waves`: wave +1, a fresh cohort of `DIFFICULTY[difficulty]["count"]`
robots, and a boss exactly when the new wave is the final one. -/
theorem next_wave_spec (sx : SpawnExt) (s' : GameState)
    (hboss' : s'.boss = none) (hlt : s'.current_wave < s'.max_waves) :
    (Game.next_wave sx s').current_wave = s'.current_wave + 1
    ∧ (Game.next_wave sx s').robots.length = (DIFFICULTY s'.difficulty).count
    ∧ (s'.current_wave + 1 = s'.max_waves →
        (Game.next_wave sx s').boss.isSome = true)
    ∧ (s'.current_wave + 1 ≠ s'.max_waves →
        (Game.next_wave sx s').boss = none) := by
  simp only [Game.next_wave]
  rw [if_pos (show s'.current_wave + 1 ≤ s'.max_waves from hlt)]
  simp only [spawn_robots_current_wave, spawn_robots_max_waves]
  refine ⟨?_, ?_, ?_, ?_⟩
  · split_ifs <;> simp [Game.spawn_boss, Game.spawn_robots]
  · split_ifs <;> simp [Game.spawn_boss, Game.spawn_robots]
  · intro heq
    rw [if_pos heq]
    simp [Game.spawn_boss]
  · intro hne
    rw [if_neg hne]
    simp [Game.spawn_robots, hboss']

/-- **C6**: in wave mode (difficulty "impossible", a non-PvP mode), with
`current_wave < max_waves`, no live robots and no boss, the settle delay
runs for 121 frames during which the wave number does not change; the tick
that ends it increments `current_wave` by exactly 1 and spawns a cohort of
exactly `DIFFICULTY[difficulty]["count"]` robots, and additionally spawns a
Boss exactly when the incremented wave equals `max_waves`. -/
theorem wave_director_advances (sx : SpawnExt) (s : GameState)
    (hm : s.game_mode ≠ "pvp") (hm2 : s.game_mode ≠ "online_pvp")
    (hdiff : s.difficulty = .impossible) (hrob : s.robots = [])
    (hboss : s.boss = none) (hwave : s.current_wave < s.max_waves)
    (htimer : s.wave_complete_timer = 0) :
    (((Game.waveCheck sx)^[121] s).current_wave = s.current_wave + 1)
    ∧ (((Game.waveCheck sx)^[121] s).robots.length
        = (DIFFICULTY s.difficulty).count)
    ∧ (s.current_wave + 1 = s.max_waves →
        ((Game.waveCheck sx)^[121] s).boss.isSome = true)
    ∧ (s.current_wave + 1 ≠ s.max_waves →
        ((Game.waveCheck sx)^[121] s).boss = none)
    ∧ (∀ n ≤ 120, ((Game.waveCheck sx)^[n] s).current_wave = s.current_wave) := by
  have h120 := waveCheck_settle_ticks sx 120 s hm hm2 hdiff hrob hboss hwave
    (by omega)
  have hstep121 : (Game.waveCheck sx)^[121] s =
      Game.next_wave sx { s with wave_complete_timer := 0 } := by
    rw [show (121 : ℕ) = 120 + 1 from rfl, Function.iterate_succ_apply', h120]
    simp only [Game.waveCheck]
    rw [if_neg (not_or.mpr ⟨hm, hm2⟩), if_pos hdiff,
      if_pos (show s.robots.length = 0 ∧ s.boss = none from
        ⟨by rw [hrob]; rfl, hboss⟩),
      if_pos hwave,
      if_pos (show s.wave_complete_timer + 120 + 1 > 120 by omega)]
  have hnw := next_wave_spec sx { s with wave_complete_timer := 0 } hboss hwave
  refine ⟨?_, ?_, ?_, ?_, ?_⟩
  · rw [hstep121]
    exact hnw.1
  · rw [hstep121]
    exact hnw.2.1
  · intro heq
    rw [hstep121]
    exact hnw.2.2.1 heq
  · intro hne
    rw [hstep121]
    exact hnw.2.2.2 hne
  · intro n hn
    rw [waveCheck_settle_ticks sx n s hm hm2 hdiff hrob hboss hwave (by omega)]

/-- Trivial spawn oracle for concrete wave-director runs. -/
def spawnW : SpawnExt where
  spawnPos := fun _ => (500, 500)
  patrol := fun _ => (700, 700)
  bossPos := (2500, 2500)

/-- A cleared wave-3 "impossible" state, settle timer at 0. -/
def stateC6 : GameState :=
  { player := playerW, difficulty := .impossible, game_mode := "single",
    current_wave := 3, max_waves := 5 }

/-- Witness for C6: from cleared wave 3 of 5, after the settle delay wave 4
starts with the impossible cohort of 10 robots and no boss. -/
theorem wave_director_advances_witness :
    (((Game.waveCheck spawnW)^[121] stateC6).current_wave = stateC6.current_wave + 1)
    ∧ (((Game.waveCheck spawnW)^[121] stateC6).robots.length
        = (DIFFICULTY stateC6.difficulty).count)
    ∧ (stateC6.current_wave + 1 ≠ stateC6.max_waves →
        ((Game.waveCheck spawnW)^[121] stateC6).boss = none) := by
  have h := wave_director_advances spawnW stateC6 (by decide) (by decide)
    (by decide) (by decide) (by decide) (by decide) (by decide)
  exact ⟨h.1, h.2.1, h.2.2.2.1⟩

/-! ### C7: the electric chain -/

/-- Pointwise description of the chain loop: each position's outcome depends
only on that robot's own distance to the primary (one hop, no propagation). -/
theorem electricChainGo_getElem (e : Ext) (pidx : ℕ) (primary : Robot)
    (damage : ℤ) (start : ℕ) (robots : List Robot) (i : ℕ) :
    (electricChainGo e pidx primary damage start robots)[i]? =
      (robots[i]?).map (fun r =>
        if start + i ≠ pidx then
          (if e.sqrt ((primary.x - r.x) ^ 2 + (primary.y - r.y) ^ 2) < 150 then
            { r.take_damage (pyFloorDiv damage 2) with hit_flash := 10 }
           else r)
        else r) := by
  induction robots generalizing start i with
  | nil => simp [electricChainGo]
  | cons r rs ih =>
    cases i with
    | zero => simp [electricChainGo]
    | succ i =>
      have harith : start + 1 + i = start + (i + 1) := by omega
      simp only [electricChainGo, List.getElem?_cons_succ, ih (start + 1) i,
        harith]

/-- **C7**: when an electric projectile dealing damage `D` hits primary
robot A (index `pidx` of the live list), every other living robot strictly
within the 150-unit chain radius of A takes exactly `D // 2 = ⌊D/2⌋`
additional damage (and flashes), every robot at distance ≥ 150 is unchanged,
and the primary itself is untouched by the chain pass; the chain is a single
pass — a chained robot's damage never propagates further. -/
theorem electric_chain_half_damage (e : Ext) (pidx : ℕ) (primary : Robot)
    (damage : ℤ) (robots : List Robot) (i : ℕ) (r : Robot) (d : ℚ)
    (hi : robots[i]? = some r)
    (hd : e.sqrt ((primary.x - r.x) ^ 2 + (primary.y - r.y) ^ 2) = d) :
    (i ≠ pidx → d < 150 →
      (electricChain e pidx primary damage robots)[i]? =
        some { r.take_damage (pyFloorDiv damage 2) with hit_flash := 10 })
    ∧ (i ≠ pidx → 150 ≤ d →
      (electricChain e pidx primary damage robots)[i]? = some r)
    ∧ (i = pidx →
      (electricChain e pidx primary damage robots)[i]? = some r)
    ∧ pyFloorDiv damage 2 = ⌊(damage : ℚ) / 2⌋ := by
  have hmain := electricChainGo_getElem e pidx primary damage 0 robots i
  rw [hi] at hmain
  refine ⟨?_, ?_, ?_, fdiv_two_eq_floor damage⟩
  · intro hne hlt
    rw [electricChain, hmain]
    simp [hd, hne, hlt]
  · intro hne hge
    rw [electricChain, hmain]
    simp [hd, hne, not_lt.mpr hge]
  · intro heq
    subst heq
    rw [electricChain, hmain]
    simp

/-- Primary robot A at the origin. -/
def robotC7a : Robot := Robot.init 0 0 .easy false "gun" (0, 0)

/-- Robot B, 100 units from A. -/
def robotC7b : Robot := Robot.init 100 0 .easy false "gun" (0, 0)

/-- Oracle reporting the A-to-B distance 100. -/
def extC7 : Ext := { extW with sqrt := fun _ => 100 }

/-- Witness for C7: the robot 100 units from the primary takes ⌊25/2⌋. -/
theorem electric_chain_half_damage_witness :
    (electricChain extC7 0 robotC7a 25 [robotC7a, robotC7b])[1]? =
      some { robotC7b.take_damage (pyFloorDiv 25 2) with hit_flash := 10 } :=
  (electric_chain_half_damage extC7 0 robotC7a 25 [robotC7a, robotC7b] 1
    robotC7b 100 rfl rfl).1 (by decide) (by norm_num)

/-! ### C8: a robot killed by chain damage stays in the list -/

/-- Robot A: full easy-difficulty health 40, at the origin. -/
def robotC8a : Robot := Robot.init 0 0 .easy false "gun" (0, 0)

/-- Robot B: worn down to 10 health, 100 units from A. -/
def robotC8b : Robot := { Robot.init 100 0 .easy false "gun" (0, 0) with health := 10 }

/-- An electric player bullet dealing 25, at A's position. -/
def bulletC8 : Bullet :=
  { Bullet.init 0 0 0 true false "Electric" with damage := 25, base_damage := 25 }

/-- Oracle: distance 0 from the bullet to A (hit) and to A's headshot zone
is irrelevant (weapon is not Sniper); distance 100 between A and B. -/
def extC8 : Ext := { extW with sqrt := fun q => if q = 0 then 0 else 100 }

/-- Game state with A and B as the live robot list. -/
def stateC8 : GameState :=
  { player := playerW, robots := [robotC8a, robotC8b], difficulty := .easy,
    game_mode := "single" }

/-- **C8** (code bug, evaluated at the failing input): the electric bullet
dealing 25 strikes robot A (index 0); the chain deals `25 // 2 = 12` to
robot B (health 10) but discards `take_damage`'s death result, so after the
block B remains in the active robot list at health −2 while A survives at
15 — a robot with health ≤ 0 stays active, violating the claimed invariant. -/
theorem electric_chain_leaves_dead_robot :
    (bulletRobotsBlock extC8 stateC8 bulletC8).1.robots.map Robot.health
      = [15, -2]
    ∧ ((bulletRobotsBlock extC8 stateC8 bulletC8).1.robots.any
        (fun r => decide (r.health ≤ 0)) = true) := by
  have hs1 : ("Electric" = "Sniper") = False := by simp
  have hs2 : ("Electric" = "Freeze") = False := by simp
  have hs3 : ("single" = "pvp") = False := by simp
  have hs4 : ("gun" = "knife") = False := by simp
  have hs5 : ("gun" = "throwing_knife") = False := by simp
  have hs6 : ("gun" = "dual_pistol") = False := by simp
  have hfd : pyFloorDiv 25 2 = 12 := by decide
  constructor <;>
    norm_num [bulletRobotsBlock, bulletHitsRobot, bulletC8, stateC8, extC8, extW,
      robotC8a, robotC8b, Robot.init, Bullet.init, Robot.check_headshot,
      Bullet.get_damage, electricChain, electricChainGo, Robot.take_damage,
      DIFFICULTY, playerW, shopCheck, hs1, hs2, hs3, hs4, hs5, hs6, hfd]

/-! ### C9: the freeze status halves to 30% speed -/

/-- The state-machine section changes neither speed nor freeze timer. -/
theorem updateState_pres (r : Robot) (dist : ℚ) :
    (r.updateState dist).speed = r.speed
    ∧ (r.updateState dist).freeze_timer = r.freeze_timer := by
  simp only [Robot.updateState]
  split_ifs <;> exact ⟨rfl, rfl⟩

/-- The movement section changes neither speed nor freeze timer. -/
theorem updateMove_pres (e : Ext) (r : Robot) (px py dist : ℚ) :
    (r.updateMove e px py dist).speed = r.speed
    ∧ (r.updateMove e px py dist).freeze_timer = r.freeze_timer := by
  simp only [Robot.updateMove]
  rcases h : r.patrol_target with ⟨tx, ty⟩
  simp only [h]
  split_ifs <;> exact ⟨rfl, rfl⟩

/-- The bounds clamp changes neither speed nor freeze timer. -/
theorem updateClamp_pres (r : Robot) :
    r.updateClamp.speed = r.speed
    ∧ r.updateClamp.freeze_timer = r.freeze_timer :=
  ⟨rfl, rfl⟩

/-- One obstacle push changes neither speed nor freeze timer. -/
theorem obstaclePush_pres (e : Ext) (r : Robot) (o : Obstacle) :
    (r.obstaclePush e o).speed = r.speed
    ∧ (r.obstaclePush e o).freeze_timer = r.freeze_timer := by
  simp only [Robot.obstaclePush]
  split_ifs <;> exact ⟨rfl, rfl⟩

/-- The obstacle loop changes neither speed nor freeze timer. -/
theorem updateObstacles_pres (e : Ext) (obs : List Obstacle) (r : Robot) :
    (Robot.updateObstacles e obs r).speed = r.speed
    ∧ (Robot.updateObstacles e obs r).freeze_timer = r.freeze_timer := by
  induction obs generalizing r with
  | nil => exact ⟨rfl, rfl⟩
  | cons o os ih =>
    unfold Robot.updateObstacles at ih ⊢
    rw [List.foldl_cons]
    refine ⟨(ih _).1.trans (obstaclePush_pres e r o).1,
            (ih _).2.trans (obstaclePush_pres e r o).2⟩

/-- The cooldown ticks change neither speed nor freeze timer. -/
theorem updateCooldowns_pres (r : Robot) :
    r.updateCooldowns.speed = r.speed
    ∧ r.updateCooldowns.freeze_timer = r.freeze_timer := by
  simp only [Robot.updateCooldowns]
  split_ifs <;> exact ⟨rfl, rfl⟩

/-- What the freeze section does at the top of `Robot.update`. -/
theorem updateFreeze_spec (r : Robot) :
    (0 < r.freeze_timer →
      r.updateFreeze = { r with freeze_timer := r.freeze_timer - 1,
                                speed := r.base_speed * 0.3 })
    ∧ (¬0 < r.freeze_timer →
      r.updateFreeze = { r with speed := r.base_speed }) := by
  unfold Robot.updateFreeze
  constructor
  · intro h
    rw [if_pos h]
  · intro h
    rw [if_neg h]

/-- **C9**: a robot entering its update with `freeze_timer > 0` moves that
frame at exactly `0.3 × base_speed` (and the countdown drops by 1); on the
first update after the countdown has reached 0 its speed is `base_speed`
again. The speed set by the freeze section is the one every later section
of the same update uses — none of them writes `speed`. -/
theorem frozen_robot_speed (e : Ext) (r : Robot) (px py : ℚ)
    (obs : List Obstacle) :
    (0 < r.freeze_timer →
      (Robot.update e r px py obs).speed = 0.3 * r.base_speed
      ∧ (Robot.update e r px py obs).freeze_timer = r.freeze_timer - 1)
    ∧ (r.freeze_timer = 0 →
      (Robot.update e r px py obs).speed = r.base_speed) := by
  have hpres : ∀ (r1 : Robot) (dist : ℚ),
      ((Robot.updateObstacles e obs
          ((r1.updateState dist).updateMove e px py dist).updateClamp).updateCooldowns).speed
        = r1.speed
      ∧ ((Robot.updateObstacles e obs
          ((r1.updateState dist).updateMove e px py dist).updateClamp).updateCooldowns).freeze_timer
        = r1.freeze_timer := by
    intro r1 dist
    constructor
    · rw [(updateCooldowns_pres _).1, (updateObstacles_pres _ _ _).1,
        (updateClamp_pres _).1, (updateMove_pres _ _ _ _ _).1,
        (updateState_pres _ _).1]
    · rw [(updateCooldowns_pres _).2, (updateObstacles_pres _ _ _).2,
        (updateClamp_pres _).2, (updateMove_pres _ _ _ _ _).2,
        (updateState_pres _ _).2]
  constructor
  · intro hf
    have hfr := (updateFreeze_spec r).1 hf
    unfold Robot.update
    refine ⟨?_, ?_⟩
    · rw [(hpres _ _).1, hfr]
      show r.base_speed * 0.3 = 0.3 * r.base_speed
      ring
    · rw [(hpres _ _).2, hfr]
  · intro hf0
    have hfr := (updateFreeze_spec r).2 (by omega)
    unfold Robot.update
    rw [(hpres _ _).1, hfr]

/-- A robot two frames from thawing. -/
def robotC9 : Robot :=
  { Robot.init 1000 1000 .easy false "gun" (900, 900) with freeze_timer := 2 }

/-- Witness for C9: the frozen robot's update runs at 0.3 × base speed. -/
theorem frozen_robot_speed_witness :
    (Robot.update extW robotC9 0 0 []).speed = 0.3 * robotC9.base_speed :=
  ((frozen_robot_speed extW robotC9 0 0 []).1 (by decide)).1

/-! ### C10: the grenade fuse -/

/-- One grenade update always ticks the fuse down by exactly 1 and never
touches the `exploded` flag (the bounces affect position, angle, speed
only). -/
theorem grenade_update_fuse (e : Ext) (g : Grenade) :
    (g.update e).lifetime = g.lifetime - 1
    ∧ (g.update e).exploded = g.exploded := by
  simp only [Grenade.update]
  split_ifs <;> exact ⟨rfl, rfl⟩

/-- After `n` updates the fuse has dropped by exactly `n` and `exploded` is
what it started as. -/
theorem grenade_iterate_fuse (e : Ext) (n : ℕ) (g : Grenade) :
    ((Grenade.update e)^[n] g).lifetime = g.lifetime - n
    ∧ ((Grenade.update e)^[n] g).exploded = g.exploded := by
  induction n generalizing g with
  | zero => simp
  | succ n ih =>
    rw [Function.iterate_succ_apply]
    have h := grenade_update_fuse e g
    have h2 := ih (g.update e)
    refine ⟨?_, h2.2.trans h.2⟩
    rw [h2.1, h.1]
    push_cast
    ring

/-- **C10** (amended): a fresh grenade (fuse 90, `exploded` false) first
satisfies `should_explode` after exactly 90 updates — false at every earlier
point; it keeps satisfying it on later updates as well until the caller sets
the `exploded` flag (as `Game.update` does when it handles the explosion and
removes the grenade), after which no further update makes it true again. -/
theorem grenade_fuse_behavior (e : Ext) (x y angle : ℚ) :
    (∀ k < 90,
      ((Grenade.update e)^[k] (Grenade.init x y angle)).should_explode = false)
    ∧ ((Grenade.update e)^[90] (Grenade.init x y angle)).should_explode = true
    ∧ (∀ m, 90 ≤ m →
      ((Grenade.update e)^[m] (Grenade.init x y angle)).should_explode = true)
    ∧ (∀ m : ℕ, ((Grenade.update e)^[m]
        { (Grenade.update e)^[90] (Grenade.init x y angle) with
          exploded := true }).should_explode = false) := by
  have hinit_l : (Grenade.init x y angle).lifetime = 90 := rfl
  have hinit_e : (Grenade.init x y angle).exploded = false := rfl
  have htrue : ∀ m, 90 ≤ m →
      ((Grenade.update e)^[m] (Grenade.init x y angle)).should_explode = true := by
    intro m hm
    have h := grenade_iterate_fuse e m (Grenade.init x y angle)
    simp only [Grenade.should_explode, h.1, h.2, hinit_l, hinit_e,
      Bool.not_false, Bool.and_true]
    exact decide_eq_true (by omega)
  refine ⟨?_, htrue 90 le_rfl, htrue, ?_⟩
  · intro k hk
    have h := grenade_iterate_fuse e k (Grenade.init x y angle)
    simp only [Grenade.should_explode, h.1, h.2, hinit_l, hinit_e,
      Bool.not_false, Bool.and_true]
    rw [decide_eq_false (by omega : ¬((90 : ℤ) - (k : ℕ) ≤ 0))]
  · intro m
    have h := grenade_iterate_fuse e m
      { (Grenade.update e)^[90] (Grenade.init x y angle) with exploded := true }
    simp only [Grenade.should_explode, h.2, Bool.not_true, Bool.and_false]

/-- A fresh grenade at the origin. -/
def grenadeC10 : Grenade := Grenade.init 0 0 0

/-- **C10 counterexample**: with `exploded` never set externally,
`should_explode()` is still true after the 91st update — the claim's
"further update() calls never make should_explode() return true again"
fails at the very next frame. -/
theorem should_explode_true_after_91 :
    ((Grenade.update extW)^[91] grenadeC10).should_explode = true := by
  have h := grenade_iterate_fuse extW 91 grenadeC10
  have hl : grenadeC10.lifetime = 90 := rfl
  have he : grenadeC10.exploded = false := rfl
  simp only [Grenade.should_explode, h.1, h.2, hl, he, Bool.not_false,
    Bool.and_true]
  exact decide_eq_true (by omega)

/-- Witness for the amended C10 theorem at concrete frame counts. -/
theorem grenade_fuse_behavior_witness :
    ((Grenade.update extW)^[89] grenadeC10).should_explode = false
    ∧ ((Grenade.update extW)^[90] grenadeC10).should_explode = true
    ∧ ((Grenade.update extW)^[95] grenadeC10).should_explode = true
    ∧ ((Grenade.update extW)^[5]
        { (Grenade.update extW)^[90] grenadeC10 with
          exploded := true }).should_explode = false := by
  have h := grenade_fuse_behavior extW 0 0 0
  exact ⟨h.1 89 (by omega), h.2.1, h.2.2.1 95 (by omega), h.2.2.2 5⟩

end Arena
